import Mathlib

/-!
Shallow embedding of `packages/core/python/semgrep_runner.py` (carbonara).

The Python module shells out to the external `semgrep` engine; every
interaction with the outside world (subprocess outcomes, filesystem
existence checks, the text appearing on stdout/stderr) is modelled as an
explicit environment value passed to the embedded functions.  The pure
data flow — result construction, JSON-field extraction with defaults,
statistics, success computation, and the order of the checks inside
`run` — is translated directly from the source.
-/

namespace Carbonara

/-- A parsed JSON value, as produced by Python's `json.loads`.
Numbers are restricted to integers (the claims under study never depend
on fractional values, and the file paths and severities the statistics
inspect are strings in real engine output). -/
inductive Json where
  | null : Json
  | bool (b : Bool) : Json
  | num (n : Int) : Json
  | str (s : String) : Json
  | arr (elems : List Json) : Json
  | obj (fields : List (String × Json)) : Json
  deriving Repr

mutual

/-- Decidable equality of JSON values (Python `==` on parsed-JSON data,
restricted to the integer-number fragment modelled here). -/
def Json.decEq : (a b : Json) → Decidable (a = b)
  | .null, .null => .isTrue rfl
  | .bool a, .bool b =>
    if h : a = b then .isTrue (by rw [h]) else
      .isFalse (by intro hh; injection hh with h1; exact h h1)
  | .num a, .num b =>
    if h : a = b then .isTrue (by rw [h]) else
      .isFalse (by intro hh; injection hh with h1; exact h h1)
  | .str a, .str b =>
    if h : a = b then .isTrue (by rw [h]) else
      .isFalse (by intro hh; injection hh with h1; exact h h1)
  | .arr a, .arr b =>
    match Json.decEqList a b with
    | .isTrue h => .isTrue (by rw [h])
    | .isFalse h => .isFalse (by intro hh; injection hh with h1; exact h h1)
  | .obj a, .obj b =>
    match Json.decEqFields a b with
    | .isTrue h => .isTrue (by rw [h])
    | .isFalse h => .isFalse (by intro hh; injection hh with h1; exact h h1)
  | .null, .bool _ => .isFalse (fun h => Json.noConfusion h)
  | .null, .num _ => .isFalse (fun h => Json.noConfusion h)
  | .null, .str _ => .isFalse (fun h => Json.noConfusion h)
  | .null, .arr _ => .isFalse (fun h => Json.noConfusion h)
  | .null, .obj _ => .isFalse (fun h => Json.noConfusion h)
  | .bool _, .null => .isFalse (fun h => Json.noConfusion h)
  | .bool _, .num _ => .isFalse (fun h => Json.noConfusion h)
  | .bool _, .str _ => .isFalse (fun h => Json.noConfusion h)
  | .bool _, .arr _ => .isFalse (fun h => Json.noConfusion h)
  | .bool _, .obj _ => .isFalse (fun h => Json.noConfusion h)
  | .num _, .null => .isFalse (fun h => Json.noConfusion h)
  | .num _, .bool _ => .isFalse (fun h => Json.noConfusion h)
  | .num _, .str _ => .isFalse (fun h => Json.noConfusion h)
  | .num _, .arr _ => .isFalse (fun h => Json.noConfusion h)
  | .num _, .obj _ => .isFalse (fun h => Json.noConfusion h)
  | .str _, .null => .isFalse (fun h => Json.noConfusion h)
  | .str _, .bool _ => .isFalse (fun h => Json.noConfusion h)
  | .str _, .num _ => .isFalse (fun h => Json.noConfusion h)
  | .str _, .arr _ => .isFalse (fun h => Json.noConfusion h)
  | .str _, .obj _ => .isFalse (fun h => Json.noConfusion h)
  | .arr _, .null => .isFalse (fun h => Json.noConfusion h)
  | .arr _, .bool _ => .isFalse (fun h => Json.noConfusion h)
  | .arr _, .num _ => .isFalse (fun h => Json.noConfusion h)
  | .arr _, .str _ => .isFalse (fun h => Json.noConfusion h)
  | .arr _, .obj _ => .isFalse (fun h => Json.noConfusion h)
  | .obj _, .null => .isFalse (fun h => Json.noConfusion h)
  | .obj _, .bool _ => .isFalse (fun h => Json.noConfusion h)
  | .obj _, .num _ => .isFalse (fun h => Json.noConfusion h)
  | .obj _, .str _ => .isFalse (fun h => Json.noConfusion h)
  | .obj _, .arr _ => .isFalse (fun h => Json.noConfusion h)

/-- Decidable equality of JSON value lists. -/
def Json.decEqList : (a b : List Json) → Decidable (a = b)
  | [], [] => .isTrue rfl
  | [], _ :: _ => .isFalse (fun h => List.noConfusion h)
  | _ :: _, [] => .isFalse (fun h => List.noConfusion h)
  | x :: xs, y :: ys =>
    match Json.decEq x y with
    | .isFalse h1 => .isFalse (by intro h; injection h with hx hxs; exact h1 hx)
    | .isTrue h1 =>
      match Json.decEqList xs ys with
      | .isFalse h2 => .isFalse (by intro h; injection h with hx hxs; exact h2 hxs)
      | .isTrue h2 => .isTrue (by rw [h1, h2])

/-- Decidable equality of JSON object field lists. -/
def Json.decEqFields : (a b : List (String × Json)) → Decidable (a = b)
  | [], [] => .isTrue rfl
  | [], _ :: _ => .isFalse (fun h => List.noConfusion h)
  | _ :: _, [] => .isFalse (fun h => List.noConfusion h)
  | (k, v) :: xs, (l, w) :: ys =>
    if hk : k = l then
      match Json.decEq v w with
      | .isFalse h1 =>
        .isFalse (by intro h; injection h with hp hs; injection hp with hpk hpv; exact h1 hpv)
      | .isTrue h1 =>
        match Json.decEqFields xs ys with
        | .isFalse h2 => .isFalse (by intro h; injection h with hp hs; exact h2 hs)
        | .isTrue h2 => .isTrue (by rw [hk, h1, h2])
    else
      .isFalse (by intro h; injection h with hp hs; injection hp with hpk hpv; exact hk hpk)

end

instance : DecidableEq Json := Json.decEq

/-- `d.get(key, default)` on a Python dict `d` (here: the field list of a
`Json.obj`; `json.loads` yields dicts with distinct keys). -/
def pyGet (fields : List (String × Json)) (key : String) (dflt : Json) : Json :=
  match fields.lookup key with
  | some v => v
  | none => dflt

/-- The dict underlying a JSON value, when there is one.  `none` models the
`AttributeError` Python raises when `.get` is used on a non-dict. -/
def Json.asObj : Json → Option (List (String × Json))
  | .obj fields => some fields
  | _ => none

/-- `for x in v`: Python iteration over a parsed-JSON value.  A list yields
its elements, a dict its keys, a string its one-character substrings;
`None`, booleans and numbers are not iterable (`TypeError`, modelled as
`none`). -/
def pyIter : Json → Option (List Json)
  | .arr xs => some xs
  | .obj kvs => some (kvs.map (fun kv => Json.str kv.1))
  | .str s => some (s.toList.map (fun c => Json.str (String.mk [c])))
  | _ => none

/-- An apostrophe character, as a string (used by the Python `repr`/`str`
rendering below; written via its code point). -/
def sq : String := String.mk [Char.ofNat 39]

mutual

/-- Python `repr` of a parsed-JSON value (strings in quotes, `None`,
`True`, `False`; string-escape subtleties are not modelled — no claim
depends on them). -/
def pyRepr : Json → String
  | .null => "None"
  | .bool true => "True"
  | .bool false => "False"
  | .num n => toString n
  | .str s => sq ++ s ++ sq
  | .arr xs => "[" ++ pyReprList xs ++ "]"
  | .obj kvs => "\x7b" ++ pyReprFields kvs ++ "\x7d"

/-- `repr` of the elements of a Python list, comma-separated. -/
def pyReprList : List Json → String
  | [] => ""
  | [x] => pyRepr x
  | x :: xs => pyRepr x ++ ", " ++ pyReprList xs

/-- `repr` of the items of a Python dict, comma-separated. -/
def pyReprFields : List (String × Json) → String
  | [] => ""
  | [(k, v)] => sq ++ k ++ sq ++ ": " ++ pyRepr v
  | (k, v) :: kvs => sq ++ k ++ sq ++ ": " ++ pyRepr v ++ ", " ++ pyReprFields kvs

end

/-- Python `str` of a parsed-JSON value, as used by f-string interpolation:
scalars render directly, containers render as their `repr`. -/
def pyStr : Json → String
  | .null => "None"
  | .bool true => "True"
  | .bool false => "False"
  | .num n => toString n
  | .str s => s
  | .arr xs => pyRepr (.arr xs)
  | .obj kvs => pyRepr (.obj kvs)

/-- `SemgrepMatch` — one Semgrep finding (dataclass in the source).  The
Python dataclass annotates fields as `str`/`int`/… but does not enforce
them at runtime: `_parse_semgrep_output` stores whatever JSON value the
engine supplied, so every field is a `Json` here.  The defaults the
parser uses are recorded at the construction site. -/
structure SemgrepMatch where
  rule_id : Json
  path : Json
  start_line : Json
  end_line : Json
  start_column : Json
  end_column : Json
  message : Json
  severity : Json
  code_snippet : Json
  fix : Json
  metadata : Json
  deriving DecidableEq, Repr

/-- `SemgrepResult` — container for all Semgrep results.  `stats` is a
Python `Dict[str, int]`, modelled as an association list in insertion
order (`[]` is the empty dict `{}`). -/
structure SemgrepResult where
  «matches» : List SemgrepMatch
  errors : List String
  stats : List (String × Int)
  success : Bool
  deriving DecidableEq, Repr

/-- One entry of `data.get("results", [])`, turned into a `SemgrepMatch`
exactly as in `_parse_semgrep_output`; `none` models the
`AttributeError`/`TypeError` Python raises when a sub-value that `.get`
is called on is not a dict. -/
def parseMatch (j : Json) : Option SemgrepMatch :=
  match j.asObj with
  | none => none
  | some f =>
  match (pyGet f "start" (Json.obj [])).asObj with
  | none => none
  | some st =>
  match (pyGet f "end" (Json.obj [])).asObj with
  | none => none
  | some en =>
  match (pyGet f "extra" (Json.obj [])).asObj with
  | none => none
  | some ex =>
  some
    { rule_id := pyGet f "check_id" (Json.str "")
      path := pyGet f "path" (Json.str "")
      start_line := pyGet st "line" (Json.num 0)
      end_line := pyGet en "line" (Json.num 0)
      start_column := pyGet st "col" (Json.num 0)
      end_column := pyGet en "col" (Json.num 0)
      message := pyGet ex "message" (Json.str "")
      severity := pyGet ex "severity" (Json.str "WARNING")
      code_snippet := pyGet ex "lines" (Json.str "")
      fix := pyGet ex "fix" Json.null
      metadata := pyGet ex "metadata" (Json.obj []) }

/-- One entry of `data.get("errors", [])`, formatted as
`f"{error.get('type', 'Error')}: {error.get('message', 'Unknown error')}"`. -/
def parseErrorEntry (j : Json) : Option String :=
  match j.asObj with
  | none => none
  | some f =>
    some (pyStr (pyGet f "type" (Json.str "Error")) ++ ": " ++
          pyStr (pyGet f "message" (Json.str "Unknown error")))

/-- `sum(1 for m in matches if m.severity == sev)` — the per-severity
counters of the stats block.  A non-string `severity` compares unequal to
the string literal, as in Python. -/
def countSeverity (ms : List SemgrepMatch) (sev : String) : Int :=
  ((ms.filter (fun m => m.severity = Json.str sev)).length : Int)

/-- `len(set(m.path for m in matches)) if matches else 0` — the
`files_scanned` statistic. -/
def filesScanned (ms : List SemgrepMatch) : Int :=
  if ms.isEmpty then 0 else ((ms.map SemgrepMatch.path).dedup.length : Int)

/-- `SemgrepRunner._parse_semgrep_output` — parse Semgrep JSON output into
a structured result.  `none` models the exceptions Python raises on
shape-mismatched input (a non-dict payload, a non-iterable `results`, a
non-dict entry, …), which the caller `run` catches with its blanket
`except Exception`. -/
def parse_semgrep_output (data : Json) : Option SemgrepResult :=
  match data.asObj with
  | none => none
  | some fields =>
  match pyIter (pyGet fields "results" (Json.arr [])) with
  | none => none
  | some resultEntries =>
  match resultEntries.mapM parseMatch with
  | none => none
  | some «matches» =>
  match pyIter (pyGet fields "errors" (Json.arr [])) with
  | none => none
  | some errorEntries =>
  match errorEntries.mapM parseErrorEntry with
  | none => none
  | some errors =>
  some
    { «matches» := «matches»
      errors := errors
      stats :=
        [ ("total_matches", («matches».length : Int))
        , ("error_count", countSeverity «matches» "ERROR")
        , ("warning_count", countSeverity «matches» "WARNING")
        , ("info_count", countSeverity «matches» "INFO")
        , ("files_scanned", filesScanned «matches») ]
      success := errors.length == 0 }

/-- Outcome of the `subprocess.run(["semgrep", "--version"], …)` version
probe inside `check_semgrep_installed`: either the process completed with
some return code, or `subprocess.run` raised `SubprocessError` /
`FileNotFoundError` (e.g. no `semgrep` on the system PATH). -/
inductive ProbeOutcome where
  | completed (returncode : Int) : ProbeOutcome
  | subprocessError : ProbeOutcome
  deriving DecidableEq, Repr

/-- `SemgrepRunner.check_semgrep_installed` — true iff the version probe
ran and exited 0; a raised `SubprocessError`/`FileNotFoundError` is
caught and reported as `False`. -/
def check_semgrep_installed (probe : ProbeOutcome) : Bool :=
  match probe with
  | .completed rc => rc == 0
  | .subprocessError => false

/-- Outcome of the `pip install semgrep` subprocess inside
`install_semgrep`. -/
inductive PipOutcome where
  | completed (returncode : Int) : PipOutcome
  | subprocessError : PipOutcome
  deriving DecidableEq, Repr

/-- Environment of one `install_semgrep()` call.  `checkInstalledSeq i`
is the answer the `i`-th `check_semgrep_installed` probe would give if
the implementation made one (recorded so the spec's verification-retry
policy can be compared against what the code actually does). -/
structure InstallEnv where
  pip : PipOutcome
  checkInstalledSeq : Nat → Bool

/-- Observable behaviour of one `install_semgrep()` call: the returned
boolean, together with how many `check_semgrep_installed` probes and how
many inter-retry `time.sleep` delays it performed. -/
structure InstallTrace where
  returned : Bool
  checkInstalledCalls : Nat
  sleepCalls : Nat
  deriving DecidableEq, Repr

/-- `SemgrepRunner.install_semgrep` — runs `pip install semgrep` once and
returns `returncode == 0` (`False` if `subprocess.run` raised
`SubprocessError`).  The source performs no pre-check, no post-install
verification probe and no sleeps, so both instrumentation counters are
zero on every path. -/
def install_semgrep (env : InstallEnv) : InstallTrace :=
  match env.pip with
  | .completed rc => { returned := rc == 0, checkInstalledCalls := 0, sleepCalls := 0 }
  | .subprocessError => { returned := false, checkInstalledCalls := 0, sleepCalls := 0 }

/-- The text on the engine subprocess's stdout, classified by what
`if result.stdout:` and `json.loads(result.stdout)` do with it:
empty (falsy) text, non-empty text on which `json.loads` raises
`JSONDecodeError` (with message `excMsg`), or non-empty text parsing to
the JSON value `data`. -/
inductive EngineStdout where
  | empty : EngineStdout
  | invalidJson (raw : String) (excMsg : String) : EngineStdout
  | validJson (data : Json) : EngineStdout
  deriving Repr

/-- Outcome of the engine subprocess call inside `run`:
`subprocess.TimeoutExpired`, some other exception raised by
`subprocess.run` (message `excMsg`), or completion with captured
stdout/stderr. -/
inductive EngineOutcome where
  | timeoutExpired : EngineOutcome
  | raised (excMsg : String) : EngineOutcome
  | completed (stdout : EngineStdout) (stderr : String) : EngineOutcome
  deriving Repr

/-- Environment snapshot for one `run()` call: the version-probe outcome,
the filesystem answers for `(rules_dir / rule_file).exists()` and
`Path(target).exists()`, the engine-subprocess outcome, and the rendered
message of the exception `_parse_semgrep_output` would raise (used only
on the shape-mismatch path caught by `except Exception`). -/
structure RunEnv where
  probe : ProbeOutcome
  ruleFileExists : String → Bool
  targetExists : String → Bool
  engine : EngineOutcome
  parseExcMsg : String

/-- What one `run()` call did: the `SemgrepResult` it returned, and
whether the engine subprocess spawn (`subprocess.run(cmd, …)`) was
reached. -/
structure RunOutcome where
  result : SemgrepResult
  engineSpawned : Bool

/-- A failure result as `run` builds one at each early-return site:
empty matches, a single error string, the empty stats dict, and
`success=False`. -/
def mkFailure (msg : String) : SemgrepResult :=
  { «matches» := [], errors := [msg], stats := [], success := false }

/-- The error message of the `check_semgrep_installed` failure path of
`run` (the apostrophes of the source string are written via `sq`). -/
def notInstalledMsg : String :=
  "Semgrep is not installed. Please install it using " ++ sq ++ "pip install semgrep" ++ sq

/-- The part of `run` from the engine subprocess call onwards: the
`try`/`except` block around `subprocess.run(cmd, …)`, the
`if result.stdout:` split, JSON parsing, and the specific handlers for
`TimeoutExpired`, `JSONDecodeError` and the blanket `Exception`. -/
def runEngine (env : RunEnv) : RunOutcome :=
  match env.engine with
  | .timeoutExpired =>
    ⟨mkFailure "Semgrep execution timed out after 60 seconds", true⟩
  | .raised excMsg =>
    ⟨mkFailure ("Unexpected error running Semgrep: " ++ excMsg), true⟩
  | .completed stdout stderr =>
    match stdout with
    | .empty =>
      ⟨mkFailure (if stderr.isEmpty then "Unknown error running Semgrep" else stderr), true⟩
    | .invalidJson _ excMsg =>
      ⟨mkFailure ("Failed to parse Semgrep output: " ++ excMsg), true⟩
    | .validJson data =>
      match parse_semgrep_output data with
      | some r => ⟨r, true⟩
      | none => ⟨mkFailure ("Unexpected error running Semgrep: " ++ env.parseExcMsg), true⟩

/-- The target-validation loop of `run`: each target is checked with
`Path(target).exists()` in order, returning the "Target path not found"
failure for the first missing one, before any subprocess is spawned. -/
def runTargets (env : RunEnv) (targets : List String) : RunOutcome :=
  match targets.find? (fun t => !(env.targetExists t)) with
  | some t => ⟨mkFailure ("Target path not found: " ++ t), false⟩
  | none => runEngine env

/-- `SemgrepRunner.run` — the full control flow of the source method:
installation check, rule-file check (`if rule_file:` is Python
truthiness, so `None` and `""` both fall back to the rules directory),
target validation, then the engine subprocess.  `rulesDir` is the
runner's `rules_dir`, used only to render the rule-file error message
(`config_path = self.rules_dir / rule_file`). -/
def run (env : RunEnv) (rulesDir : String) (targets : List String)
    (ruleFile : Option String) : RunOutcome :=
  if !(check_semgrep_installed env.probe) then
    ⟨mkFailure notInstalledMsg, false⟩
  else
    match ruleFile with
    | some rf =>
      if !rf.isEmpty && !(env.ruleFileExists rf) then
        ⟨mkFailure ("Rule file not found: " ++ rulesDir ++ "/" ++ rf), false⟩
      else
        runTargets env targets
    | none => runTargets env targets

/-- Environment of `SemgrepRunner.__init__`: the default rules directory
(`Path(__file__).parent.parent / "semgrep-rules"`) and the filesystem
answer for `self.rules_dir.exists()`. -/
structure InitEnv where
  defaultRulesDir : String
  dirExists : String → Bool

/-- Outcome of `SemgrepRunner.__init__`: a constructed runner carrying
its `rules_dir`, or a raised `ValueError` — the constructor does not
return a `SemgrepResult` on failure. -/
inductive InitOutcome where
  | ok (rules_dir : String) : InitOutcome
  | valueError (msg : String) : InitOutcome
  deriving DecidableEq, Repr

/-- The `rules_dir` the constructor settles on: the argument if one was
given (`rules_dir is None` is an identity check, so even `""` counts as
given), else the default directory. -/
def resolveRulesDir (env : InitEnv) (rulesDir : Option String) : String :=
  match rulesDir with
  | none => env.defaultRulesDir
  | some d => d

/-- `SemgrepRunner.__init__` — resolves `rules_dir` and raises
`ValueError` when the directory does not exist. -/
def SemgrepRunner.init (env : InitEnv) (rulesDir : Option String) : InitOutcome :=
  let rd := resolveRulesDir env rulesDir
  if env.dirExists rd then
    .ok rd
  else
    .valueError ("Rules directory does not exist: " ++ rd)

/-- Modelled from the spec: the Engine Locator (`_find_semgrep_path`).
The locator itself is absent from `src/` — only its unit tests
(`test_semgrep_runner.py`, `test_find_semgrep_path_*`) reference it — so
its candidate environment is taken from spec §4.1: each field holds the
path of an existing, executable engine candidate at that location, or
`none` when that location has no usable candidate.  `sitePackagesBin`
lists the candidates under each site-packages `bin`/`Scripts` directory
in the platform's resolution order. -/
structure LocatorEnv where
  systemPath : Option String
  interpreterBin : Option String
  sitePackagesBin : List (Option String)
  userLocalBin : Option String

/-- First hit in a list of optional candidates, in order. -/
def firstCandidate : List (Option String) → Option String
  | [] => none
  | some p :: _ => some p
  | none :: rest => firstCandidate rest

/-- Modelled from the spec: `_find_semgrep_path` tries its candidate
locations in the fixed priority order of §4.1 — system PATH, the
`bin`/`Scripts` directory adjacent to the interpreter, each
site-packages `bin`/`Scripts` directory, the user-local bin — and
returns the first existing, executable candidate, or `none` (absence,
not an error) when no location has one. -/
def find_semgrep_path (env : LocatorEnv) : Option String :=
  match env.systemPath with
  | some p => some p
  | none =>
    match env.interpreterBin with
    | some p => some p
    | none =>
      match firstCandidate env.sitePackagesBin with
      | some p => some p
      | none => env.userLocalBin

/-- The failure conditions of one `run()` call, as enumerated by the
spec's error taxonomy: engine not installed, (truthy) rule file missing,
a target missing, subprocess timeout, an unexpected exception from the
subprocess call, empty engine stdout, malformed (non-JSON) stdout, or an
exception raised while parsing well-formed JSON of unexpected shape. -/
def runFailureCondition (env : RunEnv) (targets : List String)
    (ruleFile : Option String) : Prop :=
  check_semgrep_installed env.probe = false
  ∨ (∃ rf, ruleFile = some rf ∧ rf.isEmpty = false ∧ env.ruleFileExists rf = false)
  ∨ (∃ t, t ∈ targets ∧ env.targetExists t = false)
  ∨ env.engine = .timeoutExpired
  ∨ (∃ m, env.engine = .raised m)
  ∨ (∃ stderr, env.engine = .completed .empty stderr)
  ∨ (∃ raw m stderr, env.engine = .completed (.invalidJson raw m) stderr)
  ∨ (∃ data stderr, env.engine = .completed (.validJson data) stderr
      ∧ parse_semgrep_output data = none)

/-! ### Concrete sample inputs used by witnesses and counterexamples -/

/-- The `SemgrepMatch` that `_parse_semgrep_output` builds from the
engine entry `{"path": "a.py"}` (all other fields defaulted). -/
def mA : SemgrepMatch :=
  { rule_id := .str "", path := .str "a.py", start_line := .num 0, end_line := .num 0,
    start_column := .num 0, end_column := .num 0, message := .str "", severity := .str "WARNING",
    code_snippet := .str "", fix := .null, metadata := .obj [] }

/-- Like `mA`, for the engine entry `{"path": "b.py"}`. -/
def mB : SemgrepMatch :=
  { rule_id := .str "", path := .str "b.py", start_line := .num 0, end_line := .num 0,
    start_column := .num 0, end_column := .num 0, message := .str "", severity := .str "WARNING",
    code_snippet := .str "", fix := .null, metadata := .obj [] }

/-- Engine output with five findings (all on `a.py`) and no errors. -/
def data5 : Json :=
  Json.obj
    [ ("results", Json.arr
        [ Json.obj [("path", Json.str "a.py")]
        , Json.obj [("path", Json.str "a.py")]
        , Json.obj [("path", Json.str "a.py")]
        , Json.obj [("path", Json.str "a.py")]
        , Json.obj [("path", Json.str "a.py")] ])
    , ("errors", Json.arr []) ]

/-- The result `_parse_semgrep_output` produces for `data5`. -/
def parsed5 : SemgrepResult :=
  { «matches» := [mA, mA, mA, mA, mA], errors := []
    stats := [ ("total_matches", 5), ("error_count", 0), ("warning_count", 5)
             , ("info_count", 0), ("files_scanned", 1) ]
    success := true }

/-- Engine output with three findings on two distinct files. -/
def dataC4 : Json :=
  Json.obj
    [ ("results", Json.arr
        [ Json.obj [("path", Json.str "a.py")]
        , Json.obj [("path", Json.str "b.py")]
        , Json.obj [("path", Json.str "a.py")] ]) ]

/-- The result `_parse_semgrep_output` produces for `dataC4`. -/
def resultC4 : SemgrepResult :=
  { «matches» := [mA, mB, mA], errors := []
    stats := [ ("total_matches", 3), ("error_count", 0), ("warning_count", 3)
             , ("info_count", 0), ("files_scanned", 2) ]
    success := true }

/-- A `run` environment in which the version probe raises (Semgrep not on
the PATH) while everything else would succeed. -/
def envNotInstalled : RunEnv :=
  { probe := .subprocessError, ruleFileExists := fun _ => true
    targetExists := fun _ => true
    engine := .completed (.validJson (Json.obj [])) "", parseExcMsg := "" }

/-- A `run` environment in which the engine subprocess times out. -/
def envTimeout : RunEnv :=
  { probe := .completed 0, ruleFileExists := fun _ => true
    targetExists := fun _ => true, engine := .timeoutExpired, parseExcMsg := "" }

/-- A `run` environment in which the engine produces non-empty stdout
that `json.loads` rejects. -/
def envInvalidJson : RunEnv :=
  { probe := .completed 0, ruleFileExists := fun _ => true
    targetExists := fun _ => true
    engine := .completed (.invalidJson "garbage" "Expecting value") ""
    parseExcMsg := "" }

/-- A `run` environment with Semgrep not installed and no target
existing (used to separate the two failure conditions). -/
def envC8 : RunEnv :=
  { probe := .subprocessError, ruleFileExists := fun _ => true
    targetExists := fun _ => false
    engine := .completed (.validJson (Json.obj [])) "", parseExcMsg := "" }

/-- A `run` environment with Semgrep installed and no target existing. -/
def envC8ok : RunEnv :=
  { probe := .completed 0, ruleFileExists := fun _ => true
    targetExists := fun _ => false
    engine := .completed (.validJson (Json.obj [])) "", parseExcMsg := "" }

/-- A constructor environment in which no directory exists. -/
def initEnvMissing : InitEnv :=
  { defaultRulesDir := "core/semgrep-rules", dirExists := fun _ => false }

/-- A locator environment with usable engine candidates both on the
system PATH and in the interpreter-adjacent bin directory. -/
def locEnvBoth : LocatorEnv :=
  { systemPath := some "/usr/local/bin/semgrep"
    interpreterBin := some "/opt/python/bin/semgrep"
    sitePackagesBin := [none], userLocalBin := none }

/-- A locator environment with no usable engine candidate anywhere. -/
def locEnvNone : LocatorEnv :=
  { systemPath := none, interpreterBin := none
    sitePackagesBin := [none, none], userLocalBin := none }

/-- Installation environment of the spec's retry scenario: the installer
succeeds and `checkInstalled` would answer `[false, false, false, true]`
(verification succeeding on the fourth probe). -/
def installEnvVerifyLater : InstallEnv :=
  { pip := .completed 0, checkInstalledSeq := fun i => decide (3 ≤ i) }

/-- Installation environment in which the installer succeeds but the
engine never becomes resolvable: every `checkInstalled` probe would
answer `false`. -/
def installEnvNeverVerifiable : InstallEnv :=
  { pip := .completed 0, checkInstalledSeq := fun _ => false }

/-! ## Helper lemmas -/

/-- Whenever `_parse_semgrep_output` returns a result (rather than
raising), its stats block is the five freshly computed counters and its
`success` flag is `len(errors) == 0`. -/
theorem parse_some_shape (data : Json) (r : SemgrepResult)
    (h : parse_semgrep_output data = some r) :
    r.stats = [ ("total_matches", (r.«matches».length : Int))
              , ("error_count", countSeverity r.«matches» "ERROR")
              , ("warning_count", countSeverity r.«matches» "WARNING")
              , ("info_count", countSeverity r.«matches» "INFO")
              , ("files_scanned", filesScanned r.«matches») ]
    ∧ r.success = (r.errors.length == 0) := by
  unfold parse_semgrep_output at h
  rcases hobj : data.asObj with _ | fields <;> simp only [hobj] at h
  · exact Option.noConfusion h
  rcases hres : pyIter (pyGet fields "results" (Json.arr [])) with _ | entries <;>
    simp only [hres] at h
  · exact Option.noConfusion h
  rcases hms : entries.mapM parseMatch with _ | ms <;> simp only [hms] at h
  · exact Option.noConfusion h
  rcases herr : pyIter (pyGet fields "errors" (Json.arr [])) with _ | errEntries <;>
    simp only [herr] at h
  · exact Option.noConfusion h
  rcases hes : errEntries.mapM parseErrorEntry with _ | errs <;> simp only [hes] at h
  · exact Option.noConfusion h
  simp only [Option.some.injEq] at h
  subst h
  exact ⟨rfl, rfl⟩

/-- The target-validation stage either fails fast (with the subprocess
never spawned) or hands over to the engine stage with every target
existing. -/
theorem runTargets_cases (env : RunEnv) (targets : List String) :
    (∃ msg, runTargets env targets = ⟨mkFailure msg, false⟩)
  ∨ (runTargets env targets = runEngine env
      ∧ ∀ t, t ∈ targets → env.targetExists t = true) := by
  rcases hf : targets.find? (fun t => !(env.targetExists t)) with _ | t
  · refine Or.inr ⟨?_, ?_⟩
    · unfold runTargets; rw [hf]
    · intro t ht
      have hnp := List.find?_eq_none.mp hf t ht
      simpa using hnp
  · exact Or.inl ⟨"Target path not found: " ++ t, by unfold runTargets; rw [hf]⟩

/-- Control-flow skeleton of `run`: every call either returns an early
failure result without spawning the engine subprocess, or reaches the
engine stage with the installation check passed, any (truthy) rule file
existing, and every target existing. -/
theorem run_cases (env : RunEnv) (rulesDir : String) (targets : List String)
    (ruleFile : Option String) :
    (∃ msg, run env rulesDir targets ruleFile = ⟨mkFailure msg, false⟩)
  ∨ (run env rulesDir targets ruleFile = runEngine env
      ∧ check_semgrep_installed env.probe = true
      ∧ (∀ rf, ruleFile = some rf → rf.isEmpty = false → env.ruleFileExists rf = true)
      ∧ (∀ t, t ∈ targets → env.targetExists t = true)) := by
  cases hc : check_semgrep_installed env.probe
  · exact Or.inl ⟨notInstalledMsg, by simp [run, hc]⟩
  · cases ruleFile with
    | none =>
      rcases runTargets_cases env targets with ⟨msg, hm⟩ | ⟨he, hts⟩
      · exact Or.inl ⟨msg, by simp [run, hc, hm]⟩
      · refine Or.inr ⟨by simp [run, hc, he], rfl, ?_, hts⟩
        intro rf hrf; exact Option.noConfusion hrf
    | some rf =>
      cases hrf : (!rf.isEmpty && !(env.ruleFileExists rf))
      · rcases runTargets_cases env targets with ⟨msg, hm⟩ | ⟨he, hts⟩
        · exact Or.inl ⟨msg, by simp only [run, hc, hrf]; simpa using hm⟩
        · refine Or.inr ⟨by simp only [run, hc, hrf]; simpa using he, rfl, ?_, hts⟩
          intro rf2 hrf2 hne
          obtain rfl := Option.some.inj hrf2
          cases h2 : env.ruleFileExists rf
          · simp [hne, h2] at hrf
          · rfl
      · exact Or.inl ⟨"Rule file not found: " ++ rulesDir ++ "/" ++ rf,
          by simp only [run, hc, hrf]; simp⟩

/-- Under any of the enumerated failure conditions, `run` returns one of
its single-error failure results (it cannot reach a successful parse). -/
theorem run_failure_result (env : RunEnv) (rulesDir : String) (targets : List String)
    (ruleFile : Option String) (h : runFailureCondition env targets ruleFile) :
    ∃ msg, (run env rulesDir targets ruleFile).result = mkFailure msg := by
  rcases run_cases env rulesDir targets ruleFile with ⟨msg, hm⟩ | ⟨he, hc, hrfok, hts⟩
  · exact ⟨msg, by rw [hm]⟩
  · rw [he]
    rcases heng : env.engine with _ | m | ⟨stdout, stderr⟩
    · exact ⟨"Semgrep execution timed out after 60 seconds", by simp [runEngine, heng]⟩
    · exact ⟨"Unexpected error running Semgrep: " ++ m, by simp [runEngine, heng]⟩
    · cases stdout with
      | empty =>
        exact ⟨if stderr.isEmpty then "Unknown error running Semgrep" else stderr,
          by simp [runEngine, heng]⟩
      | invalidJson raw m =>
        exact ⟨"Failed to parse Semgrep output: " ++ m, by simp [runEngine, heng]⟩
      | validJson data =>
        rcases hp : parse_semgrep_output data with _ | r
        · exact ⟨"Unexpected error running Semgrep: " ++ env.parseExcMsg,
            by simp [runEngine, heng, hp]⟩
        · exfalso
          rcases h with h | ⟨rf, hrf2, hne, hex⟩ | ⟨t, ht, hmiss⟩ | h | ⟨m, h⟩
            | ⟨st, h⟩ | ⟨raw, m, st, h⟩ | ⟨d2, st, h8, hpn⟩
          · rw [hc] at h; exact Bool.noConfusion h
          · exact Bool.noConfusion ((hrfok rf hrf2 hne).symm.trans hex)
          · exact Bool.noConfusion ((hts t ht).symm.trans hmiss)
          · rw [heng] at h; exact EngineOutcome.noConfusion h
          · rw [heng] at h; exact EngineOutcome.noConfusion h
          · rw [heng] at h; injection h with h1 h2; exact EngineStdout.noConfusion h1
          · rw [heng] at h; injection h with h1 h2; exact EngineStdout.noConfusion h1
          · rw [heng] at h8; injection h8 with h1 h2
            injection h1 with hd
            subst hd
            rw [hp] at hpn
            exact Option.noConfusion hpn

/-- `firstCandidate` is `List.findSome?` of the identity. -/
theorem firstCandidate_eq_findSome (l : List (Option String)) :
    firstCandidate l = l.findSome? id := by
  induction l with
  | nil => rfl
  | cons x rest ih => cases x <;> simp [firstCandidate, List.findSome?_cons, ih]

/-- Appending a final candidate behind a list of candidates. -/
theorem firstCandidate_append_single (l : List (Option String)) (u : Option String) :
    firstCandidate (l ++ [u])
      = (match firstCandidate l with
         | some p => some p
         | none => u) := by
  induction l with
  | nil => cases u <;> rfl
  | cons x rest ih => cases x <;> simp [firstCandidate, ih]

/-! ## Claims -/

/-- C1: every `SemgrepResult` produced by `run()` or
`_parse_semgrep_output()` has `success` true iff its `errors` list is
empty, independently of the number of matches. -/
theorem success_iff_errors_empty :
    (∀ env rulesDir targets ruleFile,
        (run env rulesDir targets ruleFile).result.success
          = (run env rulesDir targets ruleFile).result.errors.isEmpty)
    ∧ (∀ data r, parse_semgrep_output data = some r → r.success = r.errors.isEmpty) := by
  have hparse : ∀ data r, parse_semgrep_output data = some r →
      r.success = r.errors.isEmpty := by
    intro data r h
    obtain ⟨_, hs⟩ := parse_some_shape data r h
    rw [hs]
    cases herr : r.errors <;> rfl
  refine ⟨?_, hparse⟩
  intro env rulesDir targets ruleFile
  rcases run_cases env rulesDir targets ruleFile with ⟨msg, hm⟩ | ⟨he, _, _, _⟩
  · rw [hm]; rfl
  · rw [he]
    rcases heng : env.engine with _ | m | ⟨stdout, stderr⟩
    · simp [runEngine, heng, mkFailure]
    · simp [runEngine, heng, mkFailure]
    · cases stdout with
      | empty => simp [runEngine, heng, mkFailure]
      | invalidJson raw m => simp [runEngine, heng, mkFailure]
      | validJson data =>
        rcases hp : parse_semgrep_output data with _ | r
        · simp [runEngine, heng, hp, mkFailure]
        · have hr := hparse data r hp
          simp [runEngine, heng, hp, hr]

/-- C1 witness: the concrete engine output `data5` (5 matches, 0 errors)
parses to a result with `success = true`. -/
theorem success_iff_errors_empty_witness :
    parse_semgrep_output data5 = some parsed5
    ∧ parsed5.success = parsed5.errors.isEmpty
    ∧ parsed5.«matches».length = 5
    ∧ parsed5.success = true :=
  ⟨by decide, success_iff_errors_empty.2 data5 parsed5 (by decide), rfl, rfl⟩

/-- C2: under every enumerated failure condition (engine not installed,
rule file missing, target missing, timeout, malformed output, unexpected
exception, empty stdout), `run` returns a `SemgrepResult` — the
embedding of `run` is a total function, so no fault propagates — with
`success = false` and a non-empty `errors` list. -/
theorem run_reports_failures (env : RunEnv) (rulesDir : String) (targets : List String)
    (ruleFile : Option String) (h : runFailureCondition env targets ruleFile) :
    (run env rulesDir targets ruleFile).result.success = false
    ∧ (run env rulesDir targets ruleFile).result.errors ≠ [] := by
  obtain ⟨msg, hm⟩ := run_failure_result env rulesDir targets ruleFile h
  rw [hm]
  exact ⟨rfl, by simp [mkFailure]⟩

/-- C2 witness: the not-installed environment yields a failed result
with a non-empty error list. -/
theorem run_reports_failures_witness :
    (run envNotInstalled "rules" ["a.py"] none).result.success = false
    ∧ (run envNotInstalled "rules" ["a.py"] none).result.errors ≠ [] :=
  run_reports_failures envNotInstalled "rules" ["a.py"] none (Or.inl rfl)

/-- C10: on every failure path before (or during) output parsing, the
result has empty `matches`, the empty `stats` dict (so none of the five
statistic keys is present), and exactly one error string. -/
theorem run_preparse_failure_shape (env : RunEnv) (rulesDir : String)
    (targets : List String) (ruleFile : Option String)
    (h : runFailureCondition env targets ruleFile) :
    (run env rulesDir targets ruleFile).result.«matches» = []
    ∧ (run env rulesDir targets ruleFile).result.stats = []
    ∧ (run env rulesDir targets ruleFile).result.errors.length = 1 := by
  obtain ⟨msg, hm⟩ := run_failure_result env rulesDir targets ruleFile h
  rw [hm]
  exact ⟨rfl, rfl, rfl⟩

/-- C10 witness: the timeout environment yields the empty-matches,
empty-stats, single-error shape. -/
theorem run_preparse_failure_shape_witness :
    (run envTimeout "rules" ["a.py"] none).result.«matches» = []
    ∧ (run envTimeout "rules" ["a.py"] none).result.stats = []
    ∧ (run envTimeout "rules" ["a.py"] none).result.errors.length = 1 :=
  run_preparse_failure_shape envTimeout "rules" ["a.py"] none
    (Or.inr (Or.inr (Or.inr (Or.inl rfl))))

/-- C3: whenever a `run()` invocation actually reaches the engine
subprocess (`engineSpawned = true`) and the engine's stdout is non-empty
but not valid JSON, the result has `success = false` and exactly one
error — the `JSONDecodeError` message — and the embedding returns
normally (no exception escapes). -/
theorem run_malformed_stdout_single_error (env : RunEnv) (rulesDir : String)
    (targets : List String) (ruleFile : Option String) (raw excMsg stderr : String)
    (heng : env.engine = .completed (.invalidJson raw excMsg) stderr)
    (hsp : (run env rulesDir targets ruleFile).engineSpawned = true) :
    (run env rulesDir targets ruleFile).result.errors
      = ["Failed to parse Semgrep output: " ++ excMsg]
    ∧ (run env rulesDir targets ruleFile).result.success = false := by
  rcases run_cases env rulesDir targets ruleFile with ⟨msg, hm⟩ | ⟨he, _, _, _⟩
  · rw [hm] at hsp; exact Bool.noConfusion hsp
  · rw [he]
    simp [runEngine, heng, mkFailure]

/-- C3 witness: a concrete invocation whose stdout is the non-JSON text
`"garbage"` yields exactly the one decode error. -/
theorem run_malformed_stdout_single_error_witness :
    (run envInvalidJson "rules" ["a.py"] none).result.errors
      = ["Failed to parse Semgrep output: " ++ "Expecting value"]
    ∧ (run envInvalidJson "rules" ["a.py"] none).result.success = false :=
  run_malformed_stdout_single_error envInvalidJson "rules" ["a.py"] none
    "garbage" "Expecting value" "" rfl rfl

/-- C4: for every parsed engine output, `stats["files_scanned"]` equals
the number of distinct `path` values among the matches (`dedup` length),
and is 0 whenever `matches` is empty — it is not the count of target
files scanned. -/
theorem files_scanned_counts_distinct_match_paths (data : Json) (r : SemgrepResult)
    (h : parse_semgrep_output data = some r) :
    r.stats.lookup "files_scanned"
      = some (((r.«matches».map SemgrepMatch.path).dedup.length : Int))
    ∧ (r.«matches» = [] → r.stats.lookup "files_scanned" = some 0) := by
  obtain ⟨hstats, _⟩ := parse_some_shape data r h
  constructor
  · rw [hstats]
    show some (filesScanned r.«matches»)
      = some (((r.«matches».map SemgrepMatch.path).dedup.length : Int))
    unfold filesScanned
    cases hm : r.«matches» with
    | nil => rfl
    | cons x xs => rfl
  · intro hm
    rw [hstats, hm]
    rfl

/-- C4 witness: three matches over two distinct files give
`files_scanned = 2` (and the theorem's distinct-path characterisation
holds at this input). -/
theorem files_scanned_counts_distinct_match_paths_witness :
    resultC4.stats.lookup "files_scanned"
      = some (((resultC4.«matches».map SemgrepMatch.path).dedup.length : Int))
    ∧ (resultC4.«matches» = [] → resultC4.stats.lookup "files_scanned" = some 0)
    ∧ resultC4.stats.lookup "files_scanned" = some 2 :=
  ⟨(files_scanned_counts_distinct_match_paths dataC4 resultC4 (by decide)).1,
   (files_scanned_counts_distinct_match_paths dataC4 resultC4 (by decide)).2,
   by decide⟩

/-- C5 (code evaluated at the claimed scenario): in the environment of
the spec's retry scenario — installer succeeds, `checkInstalled` would
answer `[false, false, false, true]` — `install_semgrep()` does return
true, but it performs zero `check_semgrep_installed` probes and zero
inter-retry delays, not the ≥ 2 delays the claim (and the repository's
own unit test `test_install_semgrep_with_retry_verification`) requires. -/
theorem install_semgrep_performs_no_verification_retries :
    (install_semgrep installEnvVerifyLater).returned = true
    ∧ (install_semgrep installEnvVerifyLater).sleepCalls = 0
    ∧ (install_semgrep installEnvVerifyLater).checkInstalledCalls = 0
    ∧ installEnvVerifyLater.checkInstalledSeq 0 = false
    ∧ installEnvVerifyLater.checkInstalledSeq 1 = false
    ∧ installEnvVerifyLater.checkInstalledSeq 2 = false
    ∧ installEnvVerifyLater.checkInstalledSeq 3 = true := by
  refine ⟨rfl, rfl, rfl, ?_, ?_, ?_, ?_⟩ <;> decide

/-- C6 (code evaluated at the claimed scenario): when the installer
reports success but the engine never becomes resolvable
(`checkInstalled` would answer false on samples 0..4 — the environment
answers false everywhere), `install_semgrep()` still returns true
without a single verification probe; its return type is a bare boolean,
so no "verification failed" error text exists, contradicting the claim
(and the repository's own test `test_run_verification_fails_after_install`). -/
theorem install_semgrep_true_despite_unverifiable :
    (install_semgrep installEnvNeverVerifiable).returned = true
    ∧ (install_semgrep installEnvNeverVerifiable).checkInstalledCalls = 0
    ∧ (install_semgrep installEnvNeverVerifiable).sleepCalls = 0
    ∧ installEnvNeverVerifiable.checkInstalledSeq 0 = false
    ∧ installEnvNeverVerifiable.checkInstalledSeq 1 = false
    ∧ installEnvNeverVerifiable.checkInstalledSeq 2 = false
    ∧ installEnvNeverVerifiable.checkInstalledSeq 3 = false
    ∧ installEnvNeverVerifiable.checkInstalledSeq 4 = false := by
  refine ⟨rfl, rfl, rfl, ?_, ?_, ?_, ?_, ?_⟩ <;> rfl

/-- C7 (locator modelled from the spec, §4.1): the locator's answer is
the first usable candidate of the priority list system PATH →
interpreter-adjacent bin → site-packages bins → user-local bin; in
particular the system-PATH candidate wins over an interpreter-adjacent
one, and when no candidate is usable the answer is `none` (absence, not
an error). -/
theorem find_semgrep_path_priority_order :
    (∀ env : LocatorEnv,
        find_semgrep_path env
          = (([env.systemPath, env.interpreterBin] ++ env.sitePackagesBin
              ++ [env.userLocalBin]).findSome? id))
    ∧ (∀ (env : LocatorEnv) (p q : String), env.systemPath = some p →
        env.interpreterBin = some q → find_semgrep_path env = some p)
    ∧ (∀ env : LocatorEnv, env.systemPath = none → env.interpreterBin = none →
        (∀ c ∈ env.sitePackagesBin, c = none) → env.userLocalBin = none →
        find_semgrep_path env = none) := by
  have hall : ∀ l : List (Option String), (∀ c ∈ l, c = none) →
      firstCandidate l = none := by
    intro l
    induction l with
    | nil => intro _; rfl
    | cons x rest ih =>
      intro hl
      have hx : x = none := hl x (List.mem_cons_self x rest)
      subst hx
      exact ih (fun c hc => hl c (List.mem_cons_of_mem _ hc))
  have hfc : ∀ env : LocatorEnv,
      find_semgrep_path env
        = firstCandidate (env.systemPath :: env.interpreterBin ::
            (env.sitePackagesBin ++ [env.userLocalBin])) := by
    intro env
    cases hs : env.systemPath with
    | some p => simp [find_semgrep_path, firstCandidate, hs]
    | none =>
      cases hi : env.interpreterBin with
      | some p => simp [find_semgrep_path, firstCandidate, hs, hi]
      | none =>
        simp only [find_semgrep_path, firstCandidate, hs, hi,
          firstCandidate_append_single]
  refine ⟨?_, ?_, ?_⟩
  · intro env
    rw [hfc env, firstCandidate_eq_findSome]
    rfl
  · intro env p q hp hq
    simp [find_semgrep_path, hp]
  · intro env hs hi hsite hu
    have hfirst : firstCandidate env.sitePackagesBin = none := hall _ hsite
    simp [find_semgrep_path, hs, hi, hfirst, hu]

/-- C7 witness: with candidates both on the system PATH and in the
interpreter-adjacent bin, the PATH one is chosen; with no candidate, the
answer is absence. -/
theorem find_semgrep_path_priority_order_witness :
    find_semgrep_path locEnvBoth = some "/usr/local/bin/semgrep"
    ∧ find_semgrep_path locEnvNone = none :=
  ⟨find_semgrep_path_priority_order.2.1 locEnvBoth "/usr/local/bin/semgrep"
      "/opt/python/bin/semgrep" rfl rfl,
   find_semgrep_path_priority_order.2.2 locEnvNone rfl rfl (by decide) rfl⟩

/-- C8 counterexample: a `run()` call whose (only) target does not exist
but whose result is the not-installed failure, not a target-not-found
failure — the target check is only reached after the installation check,
so the claim does not hold for *every* call with a missing target. -/
theorem run_missing_target_counterexample :
    envC8.targetExists "missing.py" = false
    ∧ (run envC8 "rules" ["missing.py"] none).result.errors = [notInstalledMsg]
    ∧ (run envC8 "rules" ["missing.py"] none).result.errors
        ≠ ["Target path not found: missing.py"] := by
  refine ⟨rfl, rfl, ?_⟩
  decide

/-- C8 (amended): on every `run()` call with a missing target the engine
subprocess is never spawned; and if in addition the installation check
succeeds and any (truthy) rule file exists, the result is the
target-not-found failure (with `success = false`) for the *first*
missing target — the one `targets.find?` (the source's validation loop,
which returns on the first `Path(target).exists()` failure) selects. -/
theorem run_missing_target_amended (env : RunEnv) (rulesDir : String)
    (targets : List String) (ruleFile : Option String)
    (h : ∃ t, t ∈ targets ∧ env.targetExists t = false) :
    (run env rulesDir targets ruleFile).engineSpawned = false
    ∧ (check_semgrep_installed env.probe = true →
        (∀ rf, ruleFile = some rf → rf.isEmpty = false → env.ruleFileExists rf = true) →
        ∃ t, targets.find? (fun t => !(env.targetExists t)) = some t
          ∧ t ∈ targets ∧ env.targetExists t = false
          ∧ (run env rulesDir targets ruleFile).result
              = mkFailure ("Target path not found: " ++ t)) := by
  constructor
  · rcases run_cases env rulesDir targets ruleFile with ⟨msg, hm⟩ | ⟨_, _, _, hts⟩
    · rw [hm]
    · exfalso
      obtain ⟨t, ht, hmiss⟩ := h
      exact Bool.noConfusion ((hts t ht).symm.trans hmiss)
  · intro hc hrfok
    have hrun : run env rulesDir targets ruleFile = runTargets env targets := by
      cases ruleFile with
      | none => simp [run, hc]
      | some rf =>
        have hcond : (!rf.isEmpty && !(env.ruleFileExists rf)) = false := by
          cases hie : rf.isEmpty
          · rw [hrfok rf rfl hie]; simp
          · simp [hie]
        simp [run, hc, hcond]
    rcases hf : targets.find? (fun t => !(env.targetExists t)) with _ | t
    · exfalso
      obtain ⟨t, ht, hmiss⟩ := h
      have hnp := List.find?_eq_none.mp hf t ht
      simp [hmiss] at hnp
    · refine ⟨t, rfl, List.mem_of_find?_eq_some hf, ?_, ?_⟩
      · have hp := List.find?_some hf
        simpa using hp
      · rw [hrun]; unfold runTargets; rw [hf]

/-- C8 (amended) witness: with the engine installed and both targets
missing, the call never spawns the engine subprocess and returns the
target-not-found failure naming the first missing target. -/
theorem run_missing_target_amended_witness :
    (run envC8ok "rules" ["missing1.py", "missing2.py"] none).engineSpawned = false
    ∧ (run envC8ok "rules" ["missing1.py", "missing2.py"] none).result.errors
        = ["Target path not found: missing1.py"] := by
  have h := run_missing_target_amended envC8ok "rules" ["missing1.py", "missing2.py"] none
    ⟨"missing1.py", by simp, rfl⟩
  obtain ⟨t, hfind, _, _, hres⟩ := h.2 rfl (fun rf hrf _ => Option.noConfusion hrf)
  refine ⟨h.1, ?_⟩
  have hfirst : (["missing1.py", "missing2.py"].find?
      (fun t => !(envC8ok.targetExists t))) = some "missing1.py" := rfl
  obtain rfl : t = "missing1.py" := Option.some.inj (hfind.symm.trans hfirst)
  rw [hres]
  rfl

/-- C9: constructing a `SemgrepRunner` whose resolved rules directory
(argument or default) does not exist raises `ValueError` to the caller —
it does not return any (failed) result. -/
theorem init_nonexistent_rules_dir_raises (env : InitEnv) (rulesDir : Option String)
    (h : env.dirExists (resolveRulesDir env rulesDir) = false) :
    SemgrepRunner.init env rulesDir
      = .valueError ("Rules directory does not exist: " ++ resolveRulesDir env rulesDir)
    ∧ ∀ rd, SemgrepRunner.init env rulesDir ≠ .ok rd := by
  have heq : SemgrepRunner.init env rulesDir
      = .valueError ("Rules directory does not exist: " ++ resolveRulesDir env rulesDir) := by
    simp [SemgrepRunner.init, h]
  refine ⟨heq, ?_⟩
  intro rd hcontra
  rw [heq] at hcontra
  exact InitOutcome.noConfusion hcontra

/-- C9 witness: at a concrete environment with no existing directory,
the constructor raises. -/
theorem init_nonexistent_rules_dir_raises_witness :
    SemgrepRunner.init initEnvMissing (some "/tmp/none")
      = .valueError ("Rules directory does not exist: " ++ "/tmp/none")
    ∧ ∀ rd, SemgrepRunner.init initEnvMissing (some "/tmp/none") ≠ .ok rd :=
  init_nonexistent_rules_dir_raises initEnvMissing (some "/tmp/none") rfl

end Carbonara
